import Mathlib

/-!
Verification of the Kaiten automation repository (denishonig/kaiten-automation).

This file gives a shallow embedding, in Lean 4, of the parts of the Python
source that the specification's claims are about:

* the rate-limit retry client (`index.py`, `KaitenClient._make_request_with_retry`);
* the field-value resolver (`index.py`, `ConferenceProposalEvaluator.extract_field_value`
  and the numeric/text helpers built on it);
* the classification engine (`index.py`, `calculate_rating_kachestva`,
  `calculate_tip_kontenta`, `calculate_uroven_spikera`, `calculate_ohvat`);
* the update reconciler (`index.py`, `ConferenceProposalEvaluator.update_card_parameters`);
* the session select-value cache (`kaiten_automation.py`, `KaitenClient.get_select_values`);
* the payload identifier resolver (`index.py`, `handle_http_trigger`:
  `extract_id`, `find_id_recursive`, `id_paths`).

Python dynamic values are modelled by `SVal` (scalars, used where the source
only ever holds scalars) and `JVal` (full JSON-like trees).  Python `None` is a
value (`SVal.none` / `JVal.null`); `dict.get` therefore yields the null value
both for a missing key and for a key stored with `None`, exactly as in Python.
Machine floats in the source only ever carry small label scores, so numbers are
modelled as `Rat`; the classification comparisons are exact in the source as
well (see spec section 4.4).
-/

namespace Kaiten

/-- Scalar Python value: `None`, an `int`, or a `str`.  Field descriptor ids,
property ids and names in the card payloads are always scalars. -/
inductive SVal where
  | none
  | int (n : Int)
  | str (s : String)
  deriving DecidableEq, Repr

/-- JSON-like Python value: `None`, `int`, `str`, `list`, or `dict`. -/
inductive JVal where
  | null
  | int (n : Int)
  | str (s : String)
  | arr (vs : List JVal)
  | obj (kvs : List (String × JVal))
  deriving Repr

/-- Python truthiness of a scalar: `None` is falsy, `0` is falsy, `""` is falsy. -/
def sTruthy : SVal → Bool
  | SVal.none => false
  | SVal.int n => n != 0
  | SVal.str s => s != ""

/-- Python `a or b` on scalars: returns `a` when `a` is truthy, else `b`. -/
def pyOrS (a b : SVal) : SVal :=
  if sTruthy a then a else b

/-- Python `str(...)` of a scalar (`str(None) = "None"`, `str` of an `int` is its
decimal form as produced by Lean's `toString`, which agrees with Python). -/
def pyStrS : SVal → String
  | SVal.none => "None"
  | SVal.int n => toString n
  | SVal.str s => s

/-- Python `==` between a scalar и a string: only equal strings compare equal
(`None == s` and `5 == "5"` are both `False` in Python). -/
def svalEqStr (v : SVal) (s : String) : Bool :=
  match v with
  | SVal.str t => t == s
  | _ => false

/-- Characters Python's `str.strip()` removes (ASCII whitespace, which covers
every label in this code base). -/
def isPySpace (c : Char) : Bool :=
  c == ' ' || c == '\t' || c == '\n' || c == '\r' || c == '\x0b' || c == '\x0c'

/-- Python `str.strip()`: drop leading and trailing whitespace. -/
def pyStrip (s : String) : String :=
  ((s.data.dropWhile isPySpace).reverse.dropWhile isPySpace).reverse.asString

/-- Lower-case one character the way Python's `str.lower()` does for the
alphabets appearing in this code base: ASCII `A`-`Z` and the Cyrillic capital
range `А`-`Я` (U+0410..U+042F, mapped down by 0x20) plus `Ё` (U+0401). -/
def pyLowerChar (c : Char) : Char :=
  if 'A' ≤ c ∧ c ≤ 'Z' then Char.ofNat (c.toNat + 32)
  else if c.toNat ≥ 0x410 ∧ c.toNat ≤ 0x42F then Char.ofNat (c.toNat + 32)
  else if c.toNat = 0x401 then Char.ofNat 0x451
  else c

/-- Python `str.lower()` (restricted to the alphabets used by the source). -/
def pyLower (s : String) : String :=
  (s.data.map pyLowerChar).asString

/-- Test for a string of ASCII decimal digits, as Python's `str.isdigit()`
reports for the option ids this code handles. -/
def isDigitStr (s : String) : Bool :=
  s != "" && s.data.all (fun c => '0' ≤ c ∧ c ≤ '9')

/-- Numeric value of a digit string (Python `int("007") = 7`). -/
def digitsToNat (s : String) : Nat :=
  s.data.foldl (fun acc c => acc * 10 + (c.toNat - '0'.toNat)) 0

/-- Character-list test that `p` starts the string `s` (used instead of
`String.startsWith` so that concrete instances reduce definitionally). -/
def strStartsWith (s p : String) : Bool :=
  p.data.isPrefixOf s.data

/-- Character-list form of `String.drop`. -/
def strDrop (s : String) (n : Nat) : String :=
  (s.data.drop n).asString

/-- Splitting at the decimal dot, with `String.split` semantics on the
character list. -/
def splitDot : List Char → List (List Char)
  | [] => [[]]
  | c :: rest =>
      if c = '.' then [] :: splitDot rest
      else
        match splitDot rest with
        | h :: t => (c :: h) :: t
        | [] => [[c]]

/-- Python `int(s)` on a string: optional surrounding whitespace, optional
sign, then decimal digits; anything else raises `ValueError`, modelled as
`Option.none`. -/
def pyInt (s : String) : Option Int :=
  let t := pyStrip s
  if isDigitStr t then some (Int.ofNat (digitsToNat t))
  else if strStartsWith t "-" ∧ isDigitStr (strDrop t 1) then
    some (-(Int.ofNat (digitsToNat (strDrop t 1))))
  else if strStartsWith t "+" ∧ isDigitStr (strDrop t 1) then
    some (Int.ofNat (digitsToNat (strDrop t 1)))
  else none

/-- Python `float(s)` on a string, for the numeric shapes stored in card
fields: optional sign, digits, optional fractional part.  Anything else (and
the exotic float syntaxes never produced by the API) is a `ValueError`,
modelled as `Option.none`. -/
def pyFloat (s : String) : Option Rat :=
  let t := pyStrip s
  let core := fun (u : String) (sign : Rat) =>
    match splitDot u.data with
    | [w] => if isDigitStr w.asString then some (sign * (digitsToNat w.asString : Rat)) else none
    | [w, f] =>
        if isDigitStr w.asString ∧ isDigitStr f.asString then
          some (sign * ((digitsToNat w.asString : Rat) +
            (digitsToNat f.asString : Rat) / ((10 : Rat) ^ f.length)))
        else none
    | _ => none
  if strStartsWith t "-" then core (strDrop t 1) (-1)
  else if strStartsWith t "+" then core (strDrop t 1) 1
  else core t 1

namespace JVal

/-- Python truthiness of a JSON-like value. -/
def truthy : JVal → Bool
  | null => false
  | int n => n != 0
  | str s => s != ""
  | arr vs => !vs.isEmpty
  | obj kvs => !kvs.isEmpty

/-- Python `a or b` on JSON-like values. -/
def pyOr (a b : JVal) : JVal :=
  if a.truthy then a else b

mutual

/-- Python `repr(...)` of a JSON-like value, sufficient for the values this
code ever converts: used only through `JVal.pyStr` below. -/
def pyRepr : JVal → String
  | null => "None"
  | int n => toString n
  | str s => "'" ++ s ++ "'"
  | arr vs => "[" ++ pyReprList vs ++ "]"
  | obj kvs => "\x7b" ++ pyReprObj kvs ++ "\x7d"

/-- Comma-joined `repr` of list elements. -/
def pyReprList : List JVal → String
  | [] => ""
  | [v] => pyRepr v
  | v :: rest => pyRepr v ++ ", " ++ pyReprList rest

/-- Comma-joined `repr` of dict entries. -/
def pyReprObj : List (String × JVal) → String
  | [] => ""
  | [(k, v)] => "'" ++ k ++ "': " ++ pyRepr v
  | (k, v) :: rest => "'" ++ k ++ "': " ++ pyRepr v ++ ", " ++ pyReprObj rest

end

/-- Python `str(...)` of a JSON-like value (`str` of a string is the string
itself; containers fall back to their `repr`). -/
def pyStr : JVal → String
  | null => "None"
  | int n => toString n
  | str s => s
  | arr vs => pyRepr (arr vs)
  | obj kvs => pyRepr (obj kvs)

/-- Python `==` between a JSON-like value and a string. -/
def eqStr (v : JVal) (s : String) : Bool :=
  match v with
  | str t => t == s
  | _ => false

end JVal

/-- Lookup of a key in a Python dict modelled as an association list
(first binding wins; Python dicts cannot contain duplicate keys). -/
def dictGet (kvs : List (String × JVal)) (k : String) : Option JVal :=
  (kvs.find? (fun kv => kv.1 == k)).map (·.2)

/-- Python `d.get(k)`: the stored value, or `None` when the key is absent. -/
def dictGetD (kvs : List (String × JVal)) (k : String) : JVal :=
  (dictGet kvs k).getD JVal.null

/-- Membership of a key in a Python dict. -/
def dictHas (kvs : List (String × JVal)) (k : String) : Bool :=
  kvs.any (fun kv => kv.1 == k)

/-! ## Card data model

A card, as both resolvers see it: an optional descriptor list under the
`custom_properties` key, an optional flat mapping under the `properties` key,
and the remaining ad hoc top-level keys.  An `Option.none` component models the
key being absent from the card dict. -/

/-- Entry of the `custom_properties` descriptor list.  `id`, `property_id` and
`name` are scalars (`SVal.none` models both an absent key and an explicit
`None`, exactly as `dict.get` reports them); `ptype` is the `type` key, kept as
`Option` because the source reads it with `get('type', 'unknown')`, whose
default applies only when the key is missing. -/
structure CProp where
  id : SVal := SVal.none
  property_id : SVal := SVal.none
  name : SVal := SVal.none
  ptype : Option SVal := Option.none
  value : JVal := JVal.null
  deriving Repr

/-- Card record. -/
structure Card where
  custom_properties : Option (List CProp) := Option.none
  properties : Option (List (String × JVal)) := Option.none
  top : List (String × JVal) := []
  deriving Repr

/-! ## Field resolver (`index.py`, `ConferenceProposalEvaluator.extract_field_value`) -/

/-- Match test of one descriptor against a field identifier, from
`extract_field_value`: `str(prop_id) == str(field_id)` or
`str(property_id) == str(field_id)` or `prop_name == field_id` (the field
identifier is always a string, so `str(field_id)` is the identifier itself). -/
def cpMatch (p : CProp) (fid : String) : Bool :=
  pyStrS p.id == fid || pyStrS p.property_id == fid || svalEqStr p.name fid

/-- Step 3 of `extract_field_value`: direct top-level lookup (`field_id in card`). -/
def extractTopStep (card : Card) (fid : String) : JVal :=
  if dictHas card.top fid then dictGetD card.top fid else JVal.null

/-- Steps 2-3 of `extract_field_value`: flat `properties` probe, then top level. -/
def extractAfterCP (card : Card) (fid : String) : JVal :=
  match card.properties with
  | Option.some ps =>
      if dictHas ps fid then dictGetD ps fid
      else extractTopStep card fid
  | Option.none => extractTopStep card fid

/-- Translation of `ConferenceProposalEvaluator.extract_field_value`
(`index.py` lines 255-291).  Python returns `None` both for an absent field and
for a field stored as `None`, so the result type is `JVal` with `JVal.null`
playing that role. -/
def extract_field_value (card : Card) (fid : String) : JVal :=
  if fid == "" then JVal.null
  else
    match card.custom_properties with
    | Option.some props =>
        match props.find? (fun p => cpMatch p fid) with
        | Option.some p => p.value
        | Option.none => extractAfterCP card fid
    | Option.none => extractAfterCP card fid

/-- Python `float(value)` on a card field value, with `ValueError`/`TypeError`
collapsed to the `0.0` fallback used at the call sites. -/
def jFloat : JVal → Rat
  | JVal.int n => (n : Rat)
  | JVal.str s => (pyFloat s).getD 0
  | _ => 0

/-- Translation of `ConferenceProposalEvaluator.extract_numeric_value`:
absent (`None`) or unparseable values become `0.0`. -/
def extract_numeric_value (card : Card) (fid : String) : Rat :=
  match extract_field_value card fid with
  | JVal.null => 0
  | v => jFloat v

/-- Translation of `ConferenceProposalEvaluator.extract_text_value`:
absent (`None`) stays absent, anything else is passed through `str(...)`. -/
def extract_text_value (card : Card) (fid : String) : Option String :=
  match extract_field_value card fid with
  | JVal.null => Option.none
  | v => Option.some v.pyStr

/-! ## Classification engine (`index.py` lines 398-532)

The output labels are the Russian strings of the source; the spec calls them
Gold = "Золото", Silver = "Серебро", Bronze = "Бронза",
Headliner = "Хедлайнер", Strong presenter = "Хороший Спикер",
Expert = "Эксперт", Undetermined = "Не определен". -/

/-- Core of `calculate_rating_kachestva`: quality tier from the three scores. -/
def rating_of_scores (aktualnost novizna opyt : Rat) : String :=
  let total := aktualnost + novizna + opyt
  if total ≥ 13 ∨ (aktualnost ≥ 4 ∧ novizna ≥ 4 ∧ opyt ≥ 4) then "Золото"
  else if total ≥ 9 ∨ (aktualnost ≥ 3 ∧ novizna ≥ 3 ∧ opyt ≥ 3) then "Серебро"
  else "Бронза"

/-- Core of `calculate_tip_kontenta`: content type from applicability and reach. -/
def tip_of_scores (primenimost massovost : Rat) : String :=
  if primenimost = 0 then "Не определен"
  else if primenimost = 5 ∧ massovost ≤ 2 then "Хардкор"
  else if primenimost = 5 ∧ massovost > 2 then "Массовость"
  else if primenimost = 4 ∨ primenimost = 3 then "Практический кейс"
  else if primenimost = 1 ∨ primenimost = 2 then "Вдохновение/Обзор"
  else "Не определен"

/-- Truthiness test on the influencer flag from `calculate_uroven_spikera`:
`influencer and influencer.lower() in ("да", "yes", "true", "1")`. -/
def influencer_truthy : Option String → Bool
  | Option.none => false
  | Option.some s => s != "" && ["да", "yes", "true", "1"].contains (pyLower s)

/-- Core of `calculate_uroven_spikera`: presenter tier from charisma and the
influencer flag. -/
def uroven_of_scores (harizma : Rat) (influencer : Option String) : String :=
  if harizma ≥ 5 ∧ influencer_truthy influencer then "Хедлайнер"
  else if harizma ≥ 4 then "Хороший Спикер"
  else if harizma ≥ 1 then "Эксперт"
  else "Не определен"

/-- Core of `calculate_ohvat`: reach tier from the reach score. -/
def ohvat_of_scores (massovost : Rat) : String :=
  if massovost = 0 then "Не определен"
  else if massovost = 4 ∨ massovost = 5 then "Для всех"
  else if massovost = 3 then "Кросс"
  else if massovost = 1 ∨ massovost = 2 then "Ниша"
  else "Не определен"

/-- Field-identifier configuration of `ConferenceProposalEvaluator` (the
relevant part of the env config).  The Python values are `None` or strings;
the empty string models an unset (falsy) identifier. -/
structure Config where
  field_aktualnost : String := ""
  field_novizna : String := ""
  field_opyt_spikera : String := ""
  field_primenimost : String := ""
  field_harizma : String := ""
  field_influencer : String := ""
  field_massovost : String := ""
  field_rating_kachestva : String := ""
  field_tip_kontenta : String := ""
  field_uroven_spikera : String := ""
  field_ohvat : String := ""
  deriving Repr

/-- Translation of `calculate_rating_kachestva` over a card. -/
def calculate_rating_kachestva (cfg : Config) (card : Card) : String :=
  rating_of_scores
    (extract_numeric_value card cfg.field_aktualnost)
    (extract_numeric_value card cfg.field_novizna)
    (extract_numeric_value card cfg.field_opyt_spikera)

/-- Translation of `calculate_tip_kontenta` over a card. -/
def calculate_tip_kontenta (cfg : Config) (card : Card) : String :=
  tip_of_scores
    (extract_numeric_value card cfg.field_primenimost)
    (extract_numeric_value card cfg.field_massovost)

/-- Translation of `calculate_uroven_spikera` over a card. -/
def calculate_uroven_spikera (cfg : Config) (card : Card) : String :=
  uroven_of_scores
    (extract_numeric_value card cfg.field_harizma)
    (extract_text_value card cfg.field_influencer)

/-- Translation of `calculate_ohvat` over a card. -/
def calculate_ohvat (cfg : Config) (card : Card) : String :=
  ohvat_of_scores (extract_numeric_value card cfg.field_massovost)

/-- Result of `calculate_all_parameters`. -/
structure Parameters where
  rating_kachestva : String
  tip_kontenta : String
  uroven_spikera : String
  ohvat : String
  deriving Repr

/-- Translation of `calculate_all_parameters`. -/
def calculate_all_parameters (cfg : Config) (card : Card) : Parameters :=
  { rating_kachestva := calculate_rating_kachestva cfg card
    tip_kontenta := calculate_tip_kontenta cfg card
    uroven_spikera := calculate_uroven_spikera cfg card
    ohvat := calculate_ohvat cfg card }

/-! ## Resilient request client (`index.py`, `KaitenClient._make_request_with_retry`)

The network is modelled as a function from the attempt index to the response
that request receives.  `retryAfter` is the already-parsed `Retry-After`
header (`Option.none` covers both a missing header and an unparseable one,
which the source ignores with `pass`).  Sleeps are recorded as the list of
delays passed to `time.sleep`. -/

/-- HTTP response as the retry loop inspects it. -/
structure Resp where
  status : Nat
  retryAfter : Option Rat := Option.none
  deriving Repr, DecidableEq

/-- Result of the retry loop: a returned response, or an `HTTPError` raised
for (and carrying) a response. -/
inductive RetryOutcome where
  | ok (r : Resp)
  | httpError (r : Resp)
  deriving Repr, DecidableEq

/-- Observable trace of one `_make_request_with_retry` call: how many requests
were issued, which delays were slept, and the outcome. -/
structure RetryTrace where
  requests : Nat
  sleeps : List Rat
  outcome : RetryOutcome
  deriving Repr, DecidableEq

/-- Body of the `for attempt in range(MAX_RETRIES_429 + 1)` loop from
`_make_request_with_retry`, indexed by the number of loop iterations still
available (the entry point passes `maxRetries + 1`, the length of the Python
`range`).  A 429 response before the last attempt sleeps (`Retry-After`
overriding the exponential backoff `base * 2 ** attempt`) and retries; a 429
on the last attempt raises the error of that last response
(`raise_for_status` / re-`raise`); any other 4xx/5xx raises immediately;
anything else is returned.  The zero-fuel case is the source's post-loop
`raise last_exception`, which is unreachable from the entry point because the
last iteration always returns or raises. -/
def retryGo (rs : Nat → Resp) (maxRetries : Nat) (base : Rat) :
    Nat → Nat → List Rat → RetryTrace
  | 0, attempt, acc => ⟨attempt, acc, RetryOutcome.httpError (rs (attempt - 1))⟩
  | fuel + 1, attempt, acc =>
      let r := rs attempt
      if r.status = 429 then
        if attempt < maxRetries then
          let delay := (r.retryAfter).getD (base * 2 ^ attempt)
          retryGo rs maxRetries base fuel (attempt + 1) (acc ++ [delay])
        else ⟨attempt + 1, acc, RetryOutcome.httpError r⟩
      else if 400 ≤ r.status ∧ r.status < 600 then ⟨attempt + 1, acc, RetryOutcome.httpError r⟩
      else ⟨attempt + 1, acc, RetryOutcome.ok r⟩

/-- Translation of `_make_request_with_retry` (`index.py` lines 52-137):
start the loop at attempt 0 with no recorded sleeps.  `maxRetries` is
`MAX_RETRIES_429` (env default 3) and `base` is `INITIAL_RETRY_DELAY`
(env default 1.0). -/
def make_request_with_retry (rs : Nat → Resp) (maxRetries : Nat) (base : Rat) : RetryTrace :=
  retryGo rs maxRetries base (maxRetries + 1) 0 []

/-! ## Select-value cache (`kaiten_automation.py`, `KaitenClient.get_select_values`) -/

/-- Keys probed, in order, by `_parse_select_values_response`. -/
def kaCandidateKeys : List String :=
  ["values", "data", "select_values", "items", "results", "options", "choices"]

/-- Translation of `KaitenClient._parse_select_values_response`
(`kaiten_automation.py` lines 229-242): a bare list is taken as is; a dict is
probed for the known wrapper keys in order, then for the first value that is a
non-empty list whose head is a dict with an id-like key; anything else is the
empty list. -/
def ka_parse_select_values (result : JVal) : List JVal :=
  match result with
  | JVal.arr vs => vs
  | JVal.obj kvs =>
      match kaCandidateKeys.findSome? (fun k =>
          match dictGet kvs k with
          | Option.some (JVal.arr vs) => Option.some vs
          | _ => Option.none) with
      | Option.some vs => vs
      | Option.none =>
          match kvs.findSome? (fun kv =>
              match kv.2 with
              | JVal.arr (v0 :: rest) =>
                  match v0 with
                  | JVal.obj okvs =>
                      if dictHas okvs "id" || dictHas okvs "option_id" ||
                         dictHas okvs "value_id" || dictHas okvs "select_value_id" then
                        Option.some (v0 :: rest)
                      else Option.none
                  | _ => Option.none
              | _ => Option.none) with
          | Option.some vs => vs
          | Option.none => []
  | _ => []

/-- Session cache `_select_values_cache`: property id to its cached option list. -/
abbrev SelectCache := List (Int × List JVal)

/-- Lookup in the session cache. -/
def cacheLookup (cache : SelectCache) (pid : Int) : Option (List JVal) :=
  (cache.find? (fun p => p.1 == pid)).map (·.2)

/-- Translation of `KaitenClient.get_select_values` (`kaiten_automation.py`
lines 210-227).  `resp` is the JSON the API would answer with on this call
(`Option.none` models a `RequestException`).  Returns the result handed to the
caller, the cache afterwards, and whether a network request was issued. -/
def ka_get_select_values (cache : SelectCache) (pid : Int) (resp : Option JVal) :
    Option (List JVal) × SelectCache × Bool :=
  match cacheLookup cache pid with
  | Option.some vs => (Option.some vs, cache, false)
  | Option.none =>
      match resp with
      | Option.none => (Option.none, cache, true)
      | Option.some r =>
          let values := ka_parse_select_values r
          if values.isEmpty then (Option.some values, cache, true)
          else (Option.some values, (pid, values) :: cache, true)

/-! ## Payload identifier resolver (`index.py`, `handle_http_trigger`) -/

/-- Translation of the nested `extract_id` helper (`index.py` lines 1188-1205):
an `int` above the plausibility threshold 1000 is accepted, a string is
accepted if `int(...)` parses it above the threshold, everything else is
rejected (including `None`, which the loop over paths passes in for a missing
candidate). -/
def extract_id (v : JVal) : Option Int :=
  match v with
  | JVal.int n => if n > 1000 then Option.some n else Option.none
  | JVal.str s =>
      match pyInt s with
      | Option.some n => if n > 1000 then Option.some n else Option.none
      | Option.none => Option.none
  | _ => Option.none

/-- Scan of the remaining dict entries in `find_id_recursive`: every key other
than `"id"` is recursed into, first hit wins. -/
def scanObjEntries (f : JVal → Option Int) : List (String × JVal) → Option Int
  | [] => Option.none
  | (k, v) :: rest =>
      if k == "id" then scanObjEntries f rest
      else
        match f v with
        | Option.some n => Option.some n
        | Option.none => scanObjEntries f rest

/-- Scan of list elements in `find_id_recursive`, first hit wins. -/
def scanArr (f : JVal → Option Int) : List JVal → Option Int
  | [] => Option.none
  | v :: rest =>
      match f v with
      | Option.some n => Option.some n
      | Option.none => scanArr f rest

/-- Fuel-indexed core of `find_id_recursive` (`index.py` lines 1208-1235).
The fuel is the number of levels still allowed, i.e. `max_depth -
current_depth`; the source's entry check `current_depth >= max_depth` is
exactly fuel zero.  A dict is probed for a plausible direct `id`, then its
other entries are recursed into; a list recurses into its elements; scalars
yield nothing. -/
def findIdFuel : Nat → JVal → Option Int
  | 0, _ => Option.none
  | fuel + 1, JVal.obj kvs =>
      (match dictGet kvs "id" with
       | Option.some iv =>
           match extract_id iv with
           | Option.some n => Option.some n
           | Option.none => scanObjEntries (findIdFuel fuel) kvs
       | Option.none => scanObjEntries (findIdFuel fuel) kvs)
  | fuel + 1, JVal.arr vs => scanArr (findIdFuel fuel) vs
  | _ + 1, _ => Option.none

/-- Translation of `find_id_recursive` with its depth parameters (default
`max_depth = 5`, entry `current_depth = 0`). -/
def find_id_recursive (v : JVal) (maxDepth currentDepth : Nat) : Option Int :=
  findIdFuel (maxDepth - currentDepth) v

/-- Python `v.get(k)` lifted to an arbitrary value: a dict yields the entry (or
`None`), anything else yields `None` — mirroring the `isinstance(..., dict)`
guards inside the `id_paths` lambdas, which all collapse a non-dict step to a
`None` candidate. -/
def objGetD (v : JVal) (k : String) : JVal :=
  match v with
  | JVal.obj kvs => dictGetD kvs k
  | _ => JVal.null

/-- Candidate values produced by the `id_paths` table (`index.py` lines
1238-1250), in source order.  The fifth entry is `body['card']` taken as a
candidate only when it is not itself a dict. -/
def pathCandidates (body : JVal) : List JVal :=
  [ objGetD (objGetD (objGetD body "data") "old") "id"
  , objGetD body "id"
  , objGetD body "card_id"
  , objGetD (objGetD body "card") "id"
  , (match objGetD body "card" with | JVal.obj _ => JVal.null | v => v)
  , objGetD (objGetD body "data") "id"
  , objGetD (objGetD (objGetD body "data") "changes") "id"
  , objGetD (objGetD body "payload") "id"
  , objGetD (objGetD body "webhook") "id" ]

/-- The priority walk over `id_paths` (`index.py` lines 1252-1264): first
candidate that `extract_id` accepts wins. -/
def idPathsProbe (body : JVal) : Option Int :=
  (pathCandidates body).findSome? extract_id

/-- First stage of the payload identifier resolution in `handle_http_trigger`
(`index.py` lines 1238-1281): the `id_paths` probes over the body, then the
bounded recursive search in the body, then in the whole event.  The later
stages (query-string fallback and event-root probes, lines 1289-1333) follow
in `resolve_request_card_id` below. -/
def resolve_card_id (body event : JVal) : Option Int :=
  match idPathsProbe body with
  | Option.some n => Option.some n
  | Option.none =>
      match find_id_recursive body 5 0 with
      | Option.some n => Option.some n
      | Option.none => find_id_recursive event 5 0

/-- Outcome of the full resolution sequence: a card id, absence, or an
exception escaping to `handle_http_trigger`'s generic handler. -/
inductive ResolveOutcome where
  | found (n : Int)
  | absent
  | error
  deriving DecidableEq, Repr

/-- Query-string fallback (`index.py` lines 1289-1299), which applies **no**
plausibility threshold: when the event has a `queryStringParameters` key, its
value (or `{}` when falsy) is asked for `card_id`; a truthy entry goes through
plain `int(...)`.  An unparseable string (`ValueError`) resets to `None`; the
conversion on a list or dict raises `TypeError`, and `.get` on a truthy
non-dict raises `AttributeError`, neither caught here (`ResolveOutcome.error`).
A parse result of 0 is falsy for every later `if not card_id` test and thus
behaves as absence.  The handler's `event` is always a dict; a non-dict event
has no keys. -/
def queryStringStep (event : JVal) : ResolveOutcome :=
  match event with
  | JVal.obj ekvs =>
      if dictHas ekvs "queryStringParameters" then
        match JVal.pyOr (dictGetD ekvs "queryStringParameters") (JVal.obj []) with
        | JVal.obj qkvs =>
            let cid := dictGetD qkvs "card_id"
            if cid.truthy then
              match cid with
              | JVal.int n => ResolveOutcome.found n
              | JVal.str s =>
                  match pyInt s with
                  | Option.some n =>
                      if n = 0 then ResolveOutcome.absent else ResolveOutcome.found n
                  | Option.none => ResolveOutcome.absent
              | _ => ResolveOutcome.error
            else ResolveOutcome.absent
        | _ => ResolveOutcome.error
      else ResolveOutcome.absent
  | _ => ResolveOutcome.absent

/-- Event-root probes (`index.py` lines 1301-1333), all behind the
plausibility filter: the keys `id`, `card_id`, `card` in order with first
truthy hit winning (a `card` dict is asked for its `id`), then one more
`int(event["id"]) > 1000` check. -/
def eventRootProbe (event : JVal) : Option Int :=
  match event with
  | JVal.obj ekvs =>
      let fromKeys :=
        match (if dictHas ekvs "id" then extract_id (dictGetD ekvs "id") else Option.none) with
        | Option.some n => Option.some n
        | Option.none =>
            match (if dictHas ekvs "card_id" then extract_id (dictGetD ekvs "card_id")
                   else Option.none) with
            | Option.some n => Option.some n
            | Option.none =>
                if dictHas ekvs "card" then
                  match dictGetD ekvs "card" with
                  | JVal.obj ckvs =>
                      if dictHas ckvs "id" then extract_id (dictGetD ckvs "id")
                      else extract_id (JVal.obj ckvs)
                  | v => extract_id v
                else Option.none
      match fromKeys with
      | Option.some n => Option.some n
      | Option.none =>
          if dictHas ekvs "id" then extract_id (dictGetD ekvs "id") else Option.none
  | _ => Option.none

/-- The complete resolution sequence of `handle_http_trigger` (`index.py`
lines 1238-1333): paths and recursive search, then the unthresholded
query-string fallback, then the event-root probes. -/
def resolve_request_card_id (body event : JVal) : ResolveOutcome :=
  match resolve_card_id body event with
  | Option.some n => ResolveOutcome.found n
  | Option.none =>
      match queryStringStep event with
      | ResolveOutcome.found n => ResolveOutcome.found n
      | ResolveOutcome.error => ResolveOutcome.error
      | ResolveOutcome.absent =>
          match eventRootProbe event with
          | Option.some n => ResolveOutcome.found n
          | Option.none => ResolveOutcome.absent

/-- Status code `handle_http_trigger` answers with once resolution is done
(`index.py` lines 1337-1393, and the generic exception handler at lines
1403-1410): a missing card id is reported as HTTP 400, an escaped exception
as HTTP 500, a resolved id leads to 200 or 500 according to the update's
success. -/
def handle_http_response_status (r : ResolveOutcome) (updateSucceeded : Bool) : Nat :=
  match r with
  | ResolveOutcome.absent => 400
  | ResolveOutcome.error => 500
  | ResolveOutcome.found _ => if updateSucceeded then 200 else 500

/-! ## Update reconciler (`index.py`, `ConferenceProposalEvaluator.update_card_parameters`)

Everything after fetching the card is deterministic given the card, the
select-value responses the API would give, the PATCH result, and the re-fetched
card, so the whole method is embedded as a function of that environment.
Python exceptions that the method does not catch (the `TypeError` of iterating
a non-iterable select-values payload) are modelled by an outer `Option`:
`Option.none` means the call raises instead of returning. -/

/-- Removal of every (leftmost, non-overlapping) occurrence of the marker
`id_`, that is Python's `field_id.replace('id_', '')`. -/
def removeIdMarker : List Char → List Char
  | 'i' :: 'd' :: '_' :: rest => removeIdMarker rest
  | c :: rest => c :: removeIdMarker rest
  | [] => []

/-- Normalization of the `id_` marker used throughout `index.py`:
`field_id.replace('id_', '')` when the identifier starts with `id_`
(Python's `replace` removes every occurrence). -/
def cleanFid (fid : String) : String :=
  if strStartsWith fid "id_" then (removeIdMarker fid.data).asString else fid

/-- Descriptor as `_find_property_info` returns it (either a real
`custom_properties` entry or the dict synthesized from the flat `properties`
mapping). -/
structure PropInfo where
  id : SVal
  property_id : SVal
  value : JVal
  ptype : Option SVal
  deriving Repr

/-- Descriptor match of `_find_property_info` (`index.py` lines 333-345):
raw equality against the identifier, stringified equality, stringified
equality against the prefix-stripped identifier, and name equality.  The
source lists four further disjuncts (lines 341-344) that repeat these
comparisons verbatim and are omitted here as exact duplicates. -/
def fpiMatch (p : CProp) (fid fidC : String) : Bool :=
  svalEqStr p.id fid || svalEqStr p.property_id fid ||
  (p.id != SVal.none && pyStrS p.id == fid) ||
  (p.property_id != SVal.none && pyStrS p.property_id == fid) ||
  (p.id != SVal.none && pyStrS p.id == fidC) ||
  (p.property_id != SVal.none && pyStrS p.property_id == fidC) ||
  svalEqStr p.name fid

/-- Translation of `_find_property_info` (`index.py` lines 310-389): scan the
descriptor list with the tolerant matcher; else, when the flat `properties`
mapping is present and non-empty and holds the raw or prefix-stripped key,
synthesize a descriptor for it (`property_id` is the prefix-stripped
identifier, converted to an integer when possible, and the type is the literal
`'unknown'`). -/
def find_property_info (card : Card) (fid : String) : Option PropInfo :=
  let fidC := cleanFid fid
  let fromCP :=
    match card.custom_properties with
    | Option.some props =>
        (props.find? (fun p => fpiMatch p fid fidC)).map
          (fun p => PropInfo.mk p.id p.property_id p.value p.ptype)
    | Option.none => Option.none
  match fromCP with
  | Option.some pi => Option.some pi
  | Option.none =>
      match card.properties with
      | Option.some ps =>
          if ps.isEmpty then Option.none
          else if dictHas ps fid || dictHas ps fidC then
            let propValue := JVal.pyOr (dictGetD ps fid) (dictGetD ps fidC)
            let pid :=
              match pyInt fidC with
              | Option.some n => SVal.int n
              | Option.none => SVal.str fidC
            Option.some ⟨SVal.str fid, pid, propValue, Option.some (SVal.str "unknown")⟩
          else Option.none
      | Option.none => Option.none

/-- Translation of the `KaitenClient.get_select_values` defined inside
`index.py` (lines 208-222): a `RequestException` yields `None`; a list answer
is passed through; a dict answer yields its `values` entry when that key
exists; anything else collapses to the empty list. -/
def idx_get_select_values (resp : Option JVal) : Option JVal :=
  match resp with
  | Option.none => Option.none
  | Option.some r =>
      match r with
      | JVal.arr vs => Option.some (JVal.arr vs)
      | JVal.obj kvs =>
          if dictHas kvs "values" then Option.some (dictGetD kvs "values")
          else Option.some (JVal.arr [])
      | _ => Option.some (JVal.arr [])

/-- Local cache `select_values_cache` of `update_card_parameters`: the keys are
the `property_id` values (ints and strings are distinct keys, as in a Python
dict), the entries are whatever non-`None` payload `get_select_values`
answered with. -/
abbrev UpdCache := List (SVal × JVal)

/-- Lookup in the local update cache. -/
def updCacheLookup (cache : UpdCache) (pid : SVal) : Option JVal :=
  (cache.find? (fun p => p.1 == pid)).map (·.2)

/-- Cache-aware select-values lookup of `update_card_parameters` (`index.py`
lines 631-643 and 696-708): a cache hit skips the network; otherwise the API
is asked and any non-`None` answer (empty lists included) is stored. -/
def fetchSelectValues (cache : UpdCache) (fetch : SVal → Option JVal) (pid : SVal) :
    Option JVal × UpdCache :=
  match updCacheLookup cache pid with
  | Option.some v => (Option.some v, cache)
  | Option.none =>
      match idx_get_select_values (fetch pid) with
      | Option.some v => (Option.some v, (pid, v) :: cache)
      | Option.none => (Option.none, cache)

/-- Label of one select option per the probe chain
`option.get('value') or option.get('Value') or option.get('name') or
option.get('label') or option.get('title')`. -/
def optLabel (kvs : List (String × JVal)) : JVal :=
  JVal.pyOr (dictGetD kvs "value") (JVal.pyOr (dictGetD kvs "Value")
    (JVal.pyOr (dictGetD kvs "name") (JVal.pyOr (dictGetD kvs "label") (dictGetD kvs "title"))))

/-- Identifier of one select option per
`option.get('id') or option.get('Id') or option.get('ID')`. -/
def optId (kvs : List (String × JVal)) : JVal :=
  JVal.pyOr (dictGetD kvs "id") (JVal.pyOr (dictGetD kvs "Id") (dictGetD kvs "ID"))

/-- Conversion applied to a found option id:
`int(option_id) if isinstance(option_id, (int, str)) and str(option_id).isdigit()
else option_id`. -/
def convOptionId : JVal → JVal
  | JVal.int n => JVal.int n
  | JVal.str s => if isDigitStr s then JVal.int (Int.ofNat (digitsToNat s)) else JVal.str s
  | v => v

/-- Label normalization used for the option match:
`str(...).strip().lower()`. -/
def normLabel (s : String) : String :=
  pyLower (pyStrip s)

/-- The option-scanning loop of `update_card_parameters` (`index.py` lines
648-665, repeated verbatim at lines 713-732): the first dict entry whose label
matches the outcome label case-insensitively after trimming (or, failing that
test, compares equal to it outright) and whose id is truthy yields that id,
converted by `convOptionId`; non-dict entries and options with falsy ids are
passed over. -/
def findOptionId (opts : List JVal) (label : String) : Option JVal :=
  match opts with
  | [] => Option.none
  | o :: rest =>
      match o with
      | JVal.obj kvs =>
          let ov := optLabel kvs
          let oid := optId kvs
          if ov.truthy && normLabel ov.pyStr == normLabel label then
            if oid.truthy then Option.some (convOptionId oid) else findOptionId rest label
          else if ov.eqStr label then
            if oid.truthy then Option.some (convOptionId oid) else findOptionId rest label
          else findOptionId rest label
      | _ => findOptionId rest label

/-- Python `for option in select_values` over the (truthy) select-values
payload: lists iterate their elements, strings their characters, dicts their
keys; iterating an int (or `None`) raises `TypeError`, modelled as
`Option.none`. -/
def iterOpts : JVal → Option (List JVal)
  | JVal.arr vs => Option.some vs
  | JVal.str s => Option.some (s.data.map (fun c => JVal.str (String.singleton c)))
  | JVal.obj kvs => Option.some (kvs.map (fun kv => JVal.str kv.1))
  | _ => Option.none

/-- Final write-key assembly for one field (`index.py` lines 747-769): the
write key is `id_{property_id}`; since every branch of the loop body ends with
`prop_type = 'select'`, the payload entry is the one-element array of the
option id when that id is numeric, and the field is omitted (with a warning)
otherwise. -/
def mkContribution (pid : SVal) (value : JVal) : Option (String × JVal) :=
  match value with
  | JVal.int n => Option.some ("id_" ++ pyStrS pid, JVal.arr [JVal.int n])
  | _ => Option.none

/-- Processing of one `(field_id, value)` pair of `fields_to_update`
(`index.py` lines 599-771), producing the field's payload contribution (if
any) and the updated local cache; the outer `Option` is `Option.none` when the
Python would raise while iterating a malformed select-values payload. -/
def processField (fetch : SVal → Option JVal) (cache : UpdCache) (card : Card)
    (fid : String) (label : String) : Option (Option (String × JVal) × UpdCache) :=
  match find_property_info card fid with
  | Option.some pi =>
      let pid0 := pyOrS pi.property_id pi.id
      let pid1 :=
        if sTruthy pid0 then pid0
        else
          match pyInt (cleanFid fid) with
          | Option.some n => SVal.int n
          | Option.none => SVal.str (cleanFid fid)
      if sTruthy pid1 then
        match fetchSelectValues cache fetch pid1 with
        | (Option.some v, cache') =>
            if v.truthy then
              match iterOpts v with
              | Option.none => Option.none
              | Option.some opts =>
                  match findOptionId opts label with
                  | Option.some oid => Option.some (mkContribution pid1 oid, cache')
                  | Option.none => Option.some (Option.none, cache')
            else Option.some (Option.none, cache')
        | (Option.none, cache') => Option.some (Option.none, cache')
      else Option.some (Option.none, cache)
  | Option.none =>
      match pyInt (cleanFid fid) with
      | Option.some n =>
          let pid := SVal.int n
          match fetchSelectValues cache fetch pid with
          | (Option.some v, cache') =>
              if v.truthy then
                match iterOpts v with
                | Option.none => Option.none
                | Option.some opts =>
                    match findOptionId opts label with
                    | Option.some oid => Option.some (mkContribution pid oid, cache')
                    | Option.none => Option.some (Option.none, cache')
              else Option.some (Option.none, cache')
          | (Option.none, cache') => Option.some (Option.none, cache')
      | Option.none => Option.some (Option.none, cache)

/-- Python dict assignment `properties[property_key] = final_value`. -/
def dictSet (kvs : List (String × JVal)) (k : String) (v : JVal) : List (String × JVal) :=
  if dictHas kvs k then kvs.map (fun kv => if kv.1 == k then (k, v) else kv)
  else kvs ++ [(k, v)]

/-- Output-field worklist `fields_to_update` (`index.py` lines 592-597). -/
def fieldsToUpdate (cfg : Config) (ps : Parameters) : List (String × String) :=
  [ (cfg.field_rating_kachestva, ps.rating_kachestva)
  , (cfg.field_tip_kontenta, ps.tip_kontenta)
  , (cfg.field_uroven_spikera, ps.uroven_spikera)
  , (cfg.field_ohvat, ps.ohvat) ]

/-- The `for field_id, value in fields_to_update` loop assembling the
`properties` payload: falsy field identifiers are skipped, the shared cache is
threaded through the fields in order. -/
def buildPropertiesGo (fetch : SVal → Option JVal) (card : Card) :
    List (String × String) → List (String × JVal) → UpdCache →
    Option (List (String × JVal) × UpdCache)
  | [], acc, cache => Option.some (acc, cache)
  | (fid, label) :: rest, acc, cache =>
      if fid == "" then buildPropertiesGo fetch card rest acc cache
      else
        match processField fetch cache card fid label with
        | Option.none => Option.none
        | Option.some (contrib, cache') =>
            let acc' :=
              match contrib with
              | Option.some kv => dictSet acc kv.1 kv.2
              | Option.none => acc
            buildPropertiesGo fetch card rest acc' cache'

/-- Assembled update payload for a card under a given environment of
select-value responses. -/
def buildProperties (cfg : Config) (card : Card) (fetch : SVal → Option JVal)
    (ps : Parameters) : Option (List (String × JVal) × UpdCache) :=
  buildPropertiesGo fetch card (fieldsToUpdate cfg ps) [] []

/-- Post-write verification warnings (`index.py` lines 804-845): when the
re-fetch succeeded, each written field is re-resolved on the re-fetched card
and compared, as strings, with the expected label; disagreements only produce
warnings. -/
def verificationWarnings (cfg : Config) (ps : Parameters) (updated : Option Card) :
    List String :=
  match updated with
  | Option.none => []
  | Option.some uc =>
      (fieldsToUpdate cfg ps).filterMap (fun fl =>
        if fl.1 == "" then Option.none
        else
          let actual := extract_field_value uc fl.1
          if actual.pyStr != fl.2 then
            Option.some ("field " ++ fl.1 ++ " did not update")
          else Option.none)

/-- Deterministic environment of one `update_card_parameters` call: the card
`get_card` returns (or `None`), the select-values answer of the API per
property id (`Option.none` being a request error), the boolean result of the
PATCH `update_card`, and the re-fetched card used by the verification step. -/
structure UpdateEnv where
  card : Option Card
  apiSelect : SVal → Option JVal
  patchOk : Bool
  refetched : Option Card

/-- Translation of `update_card_parameters` (`index.py` lines 534-851).
Returns the method's boolean result paired with the verification warnings it
logged; `Option.none` models the uncaught `TypeError` path. -/
def update_card_parameters (cfg : Config) (env : UpdateEnv) : Option (Bool × List String) :=
  match env.card with
  | Option.none => Option.some (false, [])
  | Option.some card =>
      let ps := calculate_all_parameters cfg card
      match buildProperties cfg card env.apiSelect ps with
      | Option.none => Option.none
      | Option.some (props, _) =>
          if props.isEmpty then Option.some (false, [])
          else
            let ok := env.patchOk
            let warns := if ok then verificationWarnings cfg ps env.refetched else []
            Option.some (ok, warns)

/-! ## Claim-side definitions

The definitions below do not come from the source: they restate, in Lean, the
shapes the claims quantify over (spec-worded resolvers to compare against the
code, hypothesis predicates, and the tier order). -/

/-- Card with no fields at all. -/
def emptyCard : Card := {}

/-- Order of the quality tiers used by claim C10: Bronze < Silver < Gold. -/
def tierRank (s : String) : Nat :=
  if s = "Золото" then 2 else if s = "Серебро" then 1 else 0

/-- Step 1 of the extraction precedence as `extract_field_value` implements
it: descriptor scan with `cpMatch`, yielding the entry's value. -/
def descriptorStep (card : Card) (fid : String) : Option JVal :=
  match card.custom_properties with
  | Option.some props => (props.find? (fun p => cpMatch p fid)).map (fun p => p.value)
  | Option.none => Option.none

/-- Step 2 of the extraction precedence: probe of the flat `properties`
mapping by the raw identifier (key presence decides, a stored `None` counts as
found). -/
def flatStep (card : Card) (fid : String) : Option JVal :=
  match card.properties with
  | Option.some ps => if dictHas ps fid then Option.some (dictGetD ps fid) else Option.none
  | Option.none => Option.none

/-- Step 3 of the extraction precedence: probe of the top-level keys by a
given identifier. -/
def topStep (card : Card) (fid : String) : Option JVal :=
  if dictHas card.top fid then Option.some (dictGetD card.top fid) else Option.none

/-- Descriptor match as claim C4 words it: internal id or property id compared
raw and as stringified/prefix-stripped forms, or the name. -/
def claimDescMatch (p : CProp) (fid : String) : Bool :=
  pyStrS p.id == fid || pyStrS p.property_id == fid ||
  pyStrS p.id == cleanFid fid || pyStrS p.property_id == cleanFid fid ||
  svalEqStr p.name fid

/-- Field extraction exactly as claim C4 states it (the spec-worded resolver,
to be compared with `extract_field_value`): descriptor scan with the
prefix-stripped comparisons included, then the flat mapping, then the
top-level keys by the raw identifier and then by its `id_`-prefixed form. -/
def extract_field_value_claim (card : Card) (fid : String) : JVal :=
  let desc : Option JVal :=
    match card.custom_properties with
    | Option.some props => (props.find? (fun p => claimDescMatch p fid)).map (fun p => p.value)
    | Option.none => Option.none
  (((desc.orElse (fun _ => flatStep card fid)).orElse
      (fun _ => topStep card fid)).orElse
      (fun _ => topStep card ("id_" ++ fid))).getD JVal.null

/-- Influencer-flag truthiness exactly as claim C9 states it: one of
`yes`/`true`/`1`, case-insensitive. -/
def claim_influencer_truthy : Option String → Bool
  | Option.none => false
  | Option.some s => ["yes", "true", "1"].contains (pyLower s)

/-- Test of whether one cached select option matches an outcome label under
the reconciler's comparison (case-insensitive trimmed match, or the literal
equality fallback); used to phrase the omission half of claim C5. -/
def optionMatchesLabel (o : JVal) (label : String) : Bool :=
  match o with
  | JVal.obj kvs =>
      let ov := optLabel kvs
      (ov.truthy && normLabel ov.pyStr == normLabel label) || ov.eqStr label
  | _ => false

mutual

/-- Hypothesis predicate of claim C8: no value anywhere in the payload parses
as an integer exceeding the plausibility threshold 1000. -/
def noPlausibleId : JVal → Bool
  | JVal.null => true
  | JVal.int n => decide (n ≤ 1000)
  | JVal.str s =>
      match pyInt s with
      | Option.some n => decide (n ≤ 1000)
      | Option.none => true
  | JVal.arr vs => noPlausibleIdList vs
  | JVal.obj kvs => noPlausibleIdObj kvs

/-- List form of `noPlausibleId`. -/
def noPlausibleIdList : List JVal → Bool
  | [] => true
  | v :: rest => noPlausibleId v && noPlausibleIdList rest

/-- Dict form of `noPlausibleId`. -/
def noPlausibleIdObj : List (String × JVal) → Bool
  | [] => true
  | kv :: rest => noPlausibleId kv.2 && noPlausibleIdObj rest

end

/-! ## Theorems -/

/-- Characterization of the Gold branch of the quality tier. -/
theorem rating_eq_gold_iff (a b c : Rat) :
    rating_of_scores a b c = "Золото" ↔
      (13 ≤ a + b + c ∨ (4 ≤ a ∧ 4 ≤ b ∧ 4 ≤ c)) := by
  unfold rating_of_scores
  dsimp only
  split_ifs with h1 h2
  · simpa using h1
  · exact iff_of_false (by decide) h1
  · exact iff_of_false (by decide) h1

/-- Characterization of the Silver branch of the quality tier. -/
theorem rating_eq_silver_iff (a b c : Rat) :
    rating_of_scores a b c = "Серебро" ↔
      (¬(13 ≤ a + b + c ∨ (4 ≤ a ∧ 4 ≤ b ∧ 4 ≤ c)) ∧
        (9 ≤ a + b + c ∨ (3 ≤ a ∧ 3 ≤ b ∧ 3 ≤ c))) := by
  unfold rating_of_scores
  dsimp only
  split_ifs with h1 h2
  · exact iff_of_false (by decide) (fun h => h.1 h1)
  · exact iff_of_true rfl ⟨h1, h2⟩
  · exact iff_of_false (by decide) (fun h => h2 h.2)

/-- Characterization of the Bronze branch of the quality tier. -/
theorem rating_eq_bronze_iff (a b c : Rat) :
    rating_of_scores a b c = "Бронза" ↔
      (¬(13 ≤ a + b + c ∨ (4 ≤ a ∧ 4 ≤ b ∧ 4 ≤ c)) ∧
        ¬(9 ≤ a + b + c ∨ (3 ≤ a ∧ 3 ≤ b ∧ 3 ≤ c))) := by
  unfold rating_of_scores
  dsimp only
  split_ifs with h1 h2
  · exact iff_of_false (by decide) (fun h => h.1 h1)
  · exact iff_of_false (by decide) (fun h => h.2 h2)
  · exact iff_of_true rfl ⟨h1, h2⟩

/-- C1: for quality-criterion triples with each score in `[0, 5]`, the tier is
Gold ("Золото") iff the sum is at least 13 or all three scores are at least 4;
Silver ("Серебро") iff it is not Gold and the sum is at least 9 or all three
scores are at least 3; Bronze ("Бронза") otherwise; in particular `(3, 3, 3)`
(sum exactly 9) is Silver and any triple with sum 8 is Bronze. -/
theorem quality_tier_spec (a b c : Rat)
    (ha0 : 0 ≤ a) (ha5 : a ≤ 5) (hb0 : 0 ≤ b) (hb5 : b ≤ 5)
    (hc0 : 0 ≤ c) (hc5 : c ≤ 5) :
    (rating_of_scores a b c = "Золото" ↔
      (13 ≤ a + b + c ∨ (4 ≤ a ∧ 4 ≤ b ∧ 4 ≤ c))) ∧
    (rating_of_scores a b c = "Серебро" ↔
      (¬(13 ≤ a + b + c ∨ (4 ≤ a ∧ 4 ≤ b ∧ 4 ≤ c)) ∧
        (9 ≤ a + b + c ∨ (3 ≤ a ∧ 3 ≤ b ∧ 3 ≤ c)))) ∧
    (rating_of_scores a b c = "Бронза" ↔
      (¬(13 ≤ a + b + c ∨ (4 ≤ a ∧ 4 ≤ b ∧ 4 ≤ c)) ∧
        ¬(9 ≤ a + b + c ∨ (3 ≤ a ∧ 3 ≤ b ∧ 3 ≤ c)))) ∧
    rating_of_scores 3 3 3 = "Серебро" ∧
    (a + b + c = 8 → rating_of_scores a b c = "Бронза") := by
  refine ⟨rating_eq_gold_iff a b c, rating_eq_silver_iff a b c,
    rating_eq_bronze_iff a b c, by norm_num [rating_of_scores], ?_⟩
  intro h8
  rw [rating_eq_bronze_iff]
  constructor
  · rintro (h13 | ⟨h4a, h4b, h4c⟩) <;> linarith
  · rintro (h9 | ⟨h3a, h3b, h3c⟩) <;> linarith

/-- Witness for C1 at the boundary triple `(3, 3, 3)`. -/
theorem quality_tier_spec_witness : rating_of_scores 3 3 3 = "Серебро" :=
  (quality_tier_spec 3 3 3 (by norm_num) (by norm_num) (by norm_num)
    (by norm_num) (by norm_num) (by norm_num)).2.2.2.1

/-- Bound on the tier order. -/
theorem tierRank_le_two (s : String) : tierRank s ≤ 2 := by
  unfold tierRank
  split_ifs <;> omega

/-- Tiers below Gold rank at most 1. -/
theorem tierRank_le_one_of_not_gold (a b c : Rat)
    (h : ¬(13 ≤ a + b + c ∨ (4 ≤ a ∧ 4 ≤ b ∧ 4 ≤ c))) :
    tierRank (rating_of_scores a b c) ≤ 1 := by
  unfold rating_of_scores
  dsimp only
  rw [if_neg h]
  split_ifs <;> decide

/-- Below both thresholds the tier ranks 0. -/
theorem tierRank_eq_zero_of_bronze (a b c : Rat)
    (h1 : ¬(13 ≤ a + b + c ∨ (4 ≤ a ∧ 4 ≤ b ∧ 4 ≤ c)))
    (h2 : ¬(9 ≤ a + b + c ∨ (3 ≤ a ∧ 3 ≤ b ∧ 3 ≤ c))) :
    tierRank (rating_of_scores a b c) = 0 := by
  unfold rating_of_scores
  dsimp only
  rw [if_neg h1, if_neg h2]
  decide

/-- C10: the quality tier is monotone in each criterion under the order
Bronze < Silver < Gold (encoded by `tierRank`). -/
theorem quality_tier_monotone (a b c a' b' c' : Rat)
    (hab : a ≤ a') (hbb : b ≤ b') (hcb : c ≤ c')
    (ha0 : 0 ≤ a) (ha5 : a ≤ 5) (hb0 : 0 ≤ b) (hb5 : b ≤ 5)
    (hc0 : 0 ≤ c) (hc5 : c ≤ 5)
    (ha0' : 0 ≤ a') (ha5' : a' ≤ 5) (hb0' : 0 ≤ b') (hb5' : b' ≤ 5)
    (hc0' : 0 ≤ c') (hc5' : c' ≤ 5) :
    tierRank (rating_of_scores a b c) ≤ tierRank (rating_of_scores a' b' c') := by
  by_cases hg : 13 ≤ a' + b' + c' ∨ (4 ≤ a' ∧ 4 ≤ b' ∧ 4 ≤ c')
  · rw [(rating_eq_gold_iff a' b' c').2 hg]
    have h2 : tierRank "Золото" = 2 := by decide
    rw [h2]
    exact tierRank_le_two _
  · have hng : ¬(13 ≤ a + b + c ∨ (4 ≤ a ∧ 4 ≤ b ∧ 4 ≤ c)) := by
      rintro (h13 | ⟨h4a, h4b, h4c⟩)
      · exact hg (Or.inl (by linarith))
      · exact hg (Or.inr ⟨by linarith, by linarith, by linarith⟩)
    by_cases hs : 9 ≤ a' + b' + c' ∨ (3 ≤ a' ∧ 3 ≤ b' ∧ 3 ≤ c')
    · rw [(rating_eq_silver_iff a' b' c').2 ⟨hg, hs⟩]
      have h1 : tierRank "Серебро" = 1 := by decide
      rw [h1]
      exact tierRank_le_one_of_not_gold a b c hng
    · have hns : ¬(9 ≤ a + b + c ∨ (3 ≤ a ∧ 3 ≤ b ∧ 3 ≤ c)) := by
        rintro (h9 | ⟨h3a, h3b, h3c⟩)
        · exact hs (Or.inl (by linarith))
        · exact hs (Or.inr ⟨by linarith, by linarith, by linarith⟩)
      rw [tierRank_eq_zero_of_bronze a b c hng hns]
      exact Nat.zero_le _

/-- Witness for C10 at `(1, 1, 1) ≤ (4, 4, 4)` (Bronze versus Gold). -/
theorem quality_tier_monotone_witness :
    tierRank (rating_of_scores 1 1 1) ≤ tierRank (rating_of_scores 4 4 4) :=
  quality_tier_monotone 1 1 1 4 4 4 (by norm_num) (by norm_num) (by norm_num)
    (by norm_num) (by norm_num) (by norm_num) (by norm_num) (by norm_num)
    (by norm_num) (by norm_num) (by norm_num) (by norm_num) (by norm_num)
    (by norm_num) (by norm_num)

/-- Truthiness of the influencer flag, spelled out. -/
theorem influencer_truthy_iff (flag : Option String) :
    influencer_truthy flag = true ↔
      ∃ s, flag = Option.some s ∧ pyLower s ∈ ["да", "yes", "true", "1"] := by
  cases flag with
  | none => simp [influencer_truthy]
  | some s =>
      unfold influencer_truthy
      rw [Bool.and_eq_true]
      constructor
      · rintro ⟨-, hmem⟩
        exact ⟨s, rfl, by simpa using hmem⟩
      · rintro ⟨t, ht, hmem⟩
        cases ht
        have hne : s ≠ "" := by
          intro he
          rw [he] at hmem
          exact absurd hmem (by decide)
        exact ⟨by simpa using hne, by simpa using hmem⟩

/-- C9 counterexample: with charisma 5 and the flag text `"да"` the code
returns Headliner ("Хедлайнер"), although `"да"` is not in the claim's truthy
set `yes`/`true`/`1`, under which the claim would demand Strong presenter. -/
theorem presenter_tier_claim_cex :
    uroven_of_scores 5 (Option.some "да") = "Хедлайнер" ∧
    claim_influencer_truthy (Option.some "да") = false := by
  constructor
  · decide
  · decide

/-- C9 (amended): for charisma in `[0, 5]` the presenter tier is Headliner
("Хедлайнер") exactly when charisma is at least 5 and the flag text is one of
`да`/`yes`/`true`/`1` case-insensitively; otherwise Strong presenter
("Хороший Спикер") when charisma is at least 4; otherwise Expert ("Эксперт")
when charisma is at least 1; otherwise Undetermined ("Не определен"). -/
theorem presenter_tier_spec (h : Rat) (flag : Option String)
    (h0 : 0 ≤ h) (h5 : h ≤ 5) :
    (uroven_of_scores h flag = "Хедлайнер" ↔
      (5 ≤ h ∧ ∃ s, flag = Option.some s ∧ pyLower s ∈ ["да", "yes", "true", "1"])) ∧
    (uroven_of_scores h flag = "Хороший Спикер" ↔
      (¬(5 ≤ h ∧ ∃ s, flag = Option.some s ∧ pyLower s ∈ ["да", "yes", "true", "1"]) ∧
        4 ≤ h)) ∧
    (uroven_of_scores h flag = "Эксперт" ↔
      (¬(5 ≤ h ∧ ∃ s, flag = Option.some s ∧ pyLower s ∈ ["да", "yes", "true", "1"]) ∧
        ¬(4 ≤ h) ∧ 1 ≤ h)) ∧
    (uroven_of_scores h flag = "Не определен" ↔
      (¬(5 ≤ h ∧ ∃ s, flag = Option.some s ∧ pyLower s ∈ ["да", "yes", "true", "1"]) ∧
        ¬(4 ≤ h) ∧ ¬(1 ≤ h))) := by
  have hiff : (5 ≤ h ∧ influencer_truthy flag = true) ↔
      (5 ≤ h ∧ ∃ s, flag = Option.some s ∧ pyLower s ∈ ["да", "yes", "true", "1"]) :=
    and_congr_right (fun _ => influencer_truthy_iff flag)
  unfold uroven_of_scores
  split_ifs with h1 h2 h3
  · exact ⟨iff_of_true rfl (hiff.1 h1),
      iff_of_false (by decide) (fun hx => hx.1 (hiff.1 h1)),
      iff_of_false (by decide) (fun hx => hx.1 (hiff.1 h1)),
      iff_of_false (by decide) (fun hx => hx.1 (hiff.1 h1))⟩
  · exact ⟨iff_of_false (by decide) (fun hx => h1 (hiff.2 hx)),
      iff_of_true rfl ⟨fun hx => h1 (hiff.2 hx), h2⟩,
      iff_of_false (by decide) (fun hx => hx.2.1 h2),
      iff_of_false (by decide) (fun hx => hx.2.1 h2)⟩
  · exact ⟨iff_of_false (by decide) (fun hx => h1 (hiff.2 hx)),
      iff_of_false (by decide) (fun hx => h2 hx.2),
      iff_of_true rfl ⟨fun hx => h1 (hiff.2 hx), h2, h3⟩,
      iff_of_false (by decide) (fun hx => hx.2.2 h3)⟩
  · exact ⟨iff_of_false (by decide) (fun hx => h1 (hiff.2 hx)),
      iff_of_false (by decide) (fun hx => h2 hx.2),
      iff_of_false (by decide) (fun hx => h3 hx.2.2),
      iff_of_true rfl ⟨fun hx => h1 (hiff.2 hx), h2, h3⟩⟩

/-- Witness for C9 (amended) at charisma 5 with the flag text `"Да"`. -/
theorem presenter_tier_spec_witness :
    uroven_of_scores 5 (Option.some "Да") = "Хедлайнер" :=
  ((presenter_tier_spec 5 (Option.some "Да") (by norm_num) (by norm_num)).1).2
    ⟨by norm_num, "Да", rfl, by decide⟩

/-- C2: on the response sequence 429, 429, 200 with no `Retry-After`, the
client (default retry cap 3) issues exactly 3 requests, sleeps the base delay
and then twice the base delay, and returns the final success. -/
theorem retry_429_429_200 (base : Rat) :
    make_request_with_retry
      (fun i => if i = 0 then ⟨429, Option.none⟩
                else if i = 1 then ⟨429, Option.none⟩
                else ⟨200, Option.none⟩) 3 base
      = ⟨3, [base, base * 2], RetryOutcome.ok ⟨200, Option.none⟩⟩ := by
  simp only [make_request_with_retry, retryGo]
  norm_num

/-- Requests issued by the retry loop never exceed the `range` length. -/
theorem retryGo_requests_le (rs : Nat → Resp) (mr : Nat) (base : Rat) :
    ∀ fuel attempt acc, attempt + fuel ≤ mr + 1 →
      (retryGo rs mr base fuel attempt acc).requests ≤ mr + 1 := by
  intro fuel
  induction fuel with
  | zero =>
      intro attempt acc h
      simp only [retryGo]
      omega
  | succ fuel ih =>
      intro attempt acc h
      simp only [retryGo]
      split_ifs with h1 h2 h3
      · exact ih (attempt + 1) _ (by omega)
      · simp only []
        omega
      · simp only []
        omega
      · simp only []
        omega

/-- A first response other than 429 ends the loop after one request. -/
theorem retry_first_not429 (rs : Nat → Resp) (mr : Nat) (base : Rat)
    (h : (rs 0).status ≠ 429) :
    (make_request_with_retry rs mr base).requests = 1 := by
  unfold make_request_with_retry
  simp only [retryGo]
  rw [if_neg h]
  split_ifs <;> rfl

/-- When every reachable attempt answers 429 the loop uses all attempts and
raises the error of the last response. -/
theorem retryGo_all429 (rs : Nat → Resp) (mr : Nat) (base : Rat)
    (h429 : ∀ i, i ≤ mr → (rs i).status = 429) :
    ∀ fuel attempt acc, attempt + fuel = mr + 1 → attempt ≤ mr →
      (retryGo rs mr base fuel attempt acc).requests = mr + 1 ∧
      (retryGo rs mr base fuel attempt acc).outcome = RetryOutcome.httpError (rs mr) := by
  intro fuel
  induction fuel with
  | zero =>
      intro attempt acc hsum hle
      omega
  | succ fuel ih =>
      intro attempt acc hsum hle
      have h1 : (rs attempt).status = 429 := h429 attempt hle
      simp only [retryGo]
      rw [if_pos h1]
      by_cases h2 : attempt < mr
      · rw [if_pos h2]
        exact ih (attempt + 1) _ (by omega) (by omega)
      · rw [if_neg h2]
        have hm : attempt = mr := by omega
        subst hm
        exact ⟨rfl, rfl⟩

/-- C3 counterexample: with the default configuration (`MAX_RETRIES_429 = 3`)
and every response a 429, the client issues 4 requests in total, not at most
3 as the claim states. -/
theorem retry_attempt_cap_cex :
    (make_request_with_retry (fun _ => Resp.mk 429 Option.none) 3 1).requests = 4 ∧
    ¬((make_request_with_retry (fun _ => Resp.mk 429 Option.none) 3 1).requests ≤ 3) := by
  have h : (make_request_with_retry (fun _ => Resp.mk 429 Option.none) 3 1).requests = 4 := rfl
  exact ⟨h, by rw [h]; omega⟩

/-- Retries happen only on 429 responses: whenever the first non-429 response
of the stream arrives at attempt `k` within the loop bound, the loop stops
right there after `k + 1` requests, returning that response when it is a
success and raising it when it is an error status. -/
theorem retryGo_stops_at_first_non429 (rs : Nat → Resp) (mr : Nat) (base : Rat) :
    ∀ fuel attempt acc k, attempt + fuel = mr + 1 → attempt ≤ k → k ≤ mr →
      (∀ i, attempt ≤ i → i < k → (rs i).status = 429) → (rs k).status ≠ 429 →
      (retryGo rs mr base fuel attempt acc).requests = k + 1 ∧
      (retryGo rs mr base fuel attempt acc).outcome =
        (if 400 ≤ (rs k).status ∧ (rs k).status < 600 then RetryOutcome.httpError (rs k)
         else RetryOutcome.ok (rs k)) := by
  intro fuel
  induction fuel with
  | zero =>
      intro attempt acc k hsum hak hkm hall hk
      omega
  | succ fuel ih =>
      intro attempt acc k hsum hak hkm hall hk
      by_cases heq : attempt = k
      · subst heq
        simp only [retryGo]
        rw [if_neg hk]
        split_ifs with h4 <;> exact ⟨rfl, rfl⟩
      · have hlt : attempt < k := lt_of_le_of_ne hak heq
        have h429 : (rs attempt).status = 429 := hall attempt le_rfl hlt
        simp only [retryGo]
        rw [if_pos h429, if_pos (show attempt < mr by omega)]
        exact ih (attempt + 1) _ k (by omega) (by omega) hkm
          (fun i h1 h2 => hall i (by omega) h2) hk

/-- C3 (amended): the client retries only rate-limit (HTTP 429) responses —
the first non-429 response, arriving at attempt `k`, ends the call after
exactly `k + 1` requests with that response returned or raised — and makes at
most `N + 1` requests in total where `N` is the configured retry cap
(`MAX_RETRIES_429`, default 3, hence 4 requests by default); when every
attempt returns 429 it stops after those `N + 1` requests and raises the last
received rate-limit error. -/
theorem retry_policy_amended (mr : Nat) (base : Rat) (rs : Nat → Resp) :
    (make_request_with_retry rs mr base).requests ≤ mr + 1 ∧
    ((rs 0).status ≠ 429 → (make_request_with_retry rs mr base).requests = 1) ∧
    (∀ k, k ≤ mr → (∀ i, i < k → (rs i).status = 429) → (rs k).status ≠ 429 →
      (make_request_with_retry rs mr base).requests = k + 1 ∧
      (make_request_with_retry rs mr base).outcome =
        (if 400 ≤ (rs k).status ∧ (rs k).status < 600 then RetryOutcome.httpError (rs k)
         else RetryOutcome.ok (rs k))) ∧
    ((∀ i, i ≤ mr → (rs i).status = 429) →
      (make_request_with_retry rs mr base).requests = mr + 1 ∧
      (make_request_with_retry rs mr base).outcome = RetryOutcome.httpError (rs mr)) :=
  ⟨retryGo_requests_le rs mr base (mr + 1) 0 [] (by omega),
   fun h => retry_first_not429 rs mr base h,
   fun k hk hall hne =>
     retryGo_stops_at_first_non429 rs mr base (mr + 1) 0 [] k (by omega) (Nat.zero_le k) hk
       (fun i _ h2 => hall i h2) hne,
   fun h => retryGo_all429 rs mr base h (mr + 1) 0 [] (by omega) (by omega)⟩

/-- Witness for C3 (amended): the all-429 part with retry cap 2, and the
only-429-retried part on a 429-then-500 stream, which stops after 2 requests. -/
theorem retry_policy_amended_witness :
    ((make_request_with_retry (fun _ => Resp.mk 429 Option.none) 2 1).requests = 2 + 1 ∧
     (make_request_with_retry (fun _ => Resp.mk 429 Option.none) 2 1).outcome
       = RetryOutcome.httpError (Resp.mk 429 Option.none)) ∧
    (make_request_with_retry
        (fun i => if i = 0 then Resp.mk 429 Option.none else Resp.mk 500 Option.none)
        3 1).requests = 1 + 1 :=
  ⟨(retry_policy_amended 2 1 (fun _ => Resp.mk 429 Option.none)).2.2.2 (fun i _ => rfl),
   ((retry_policy_amended 3 1
        (fun i => if i = 0 then Resp.mk 429 Option.none else Resp.mk 500 Option.none)).2.2.1 1
      (by omega)
      (fun i hi => by
        have h0 : i = 0 := by omega
        subst h0
        rfl)
      (by decide)).1⟩

/-- C4 counterexample: a record whose only exposure of the field is the
top-level key `id_42` and the identifier `42`.  The claim's resolver (step 3
probing the `id_`-prefixed form) finds the value 7, but `extract_field_value`
probes the top level by the raw identifier only and reports the field
absent. -/
theorem field_extraction_claim_cex :
    extract_field_value { top := [("id_42", JVal.int 7)] } "42" = JVal.null ∧
    extract_field_value_claim { top := [("id_42", JVal.int 7)] } "42" = JVal.int 7 := by
  exact ⟨rfl, rfl⟩

/-- C4 (amended): `extract_field_value` follows the fixed precedence with
first match winning: (1) scan the descriptor list, where an entry matches if
its internal id or its property id, compared as strings (without
prefix-stripping), or its name equals the identifier; (2) else probe the flat
`properties` mapping by the raw identifier; (3) else probe the top-level keys
by the raw identifier only; (4) else report absent (a falsy identifier is
absent outright). -/
theorem field_extraction_precedence (card : Card) (fid : String) :
    extract_field_value card fid =
      (if fid == "" then JVal.null
       else (((descriptorStep card fid).orElse (fun _ => flatStep card fid)).orElse
              (fun _ => topStep card fid)).getD JVal.null) := by
  obtain ⟨cp, pr, tp⟩ := card
  by_cases h0 : (fid == "") = true
  · simp [extract_field_value, h0]
  · cases cp with
    | none =>
        cases pr with
        | none =>
            simp only [extract_field_value, descriptorStep, flatStep, topStep,
              extractAfterCP, extractTopStep, if_neg h0]
            split_ifs <;> simp [Option.orElse]
        | some ps =>
            simp only [extract_field_value, descriptorStep, flatStep, topStep,
              extractAfterCP, extractTopStep, if_neg h0]
            split_ifs <;> simp [Option.orElse]
    | some props =>
        cases hf : props.find? (fun p => cpMatch p fid) with
        | some p =>
            cases pr <;>
              simp [extract_field_value, descriptorStep, flatStep, topStep,
                extractAfterCP, extractTopStep, if_neg h0, hf, Option.orElse]
        | none =>
            cases pr with
            | none =>
                simp only [extract_field_value, descriptorStep, flatStep, topStep,
                  extractAfterCP, extractTopStep, if_neg h0, hf]
                split_ifs <;> simp [Option.orElse]
            | some ps =>
                simp only [extract_field_value, descriptorStep, flatStep, topStep,
                  extractAfterCP, extractTopStep, if_neg h0, hf]
                split_ifs <;> simp [Option.orElse]

/-- Empty scan when no option matches the label. -/
theorem findOptionId_none (opts : List JVal) (label : String)
    (h : ∀ o ∈ opts, optionMatchesLabel o label = false) :
    findOptionId opts label = Option.none := by
  induction opts with
  | nil => rfl
  | cons o rest ih =>
      have hrest := ih (fun x hx => h x (List.mem_cons_of_mem o hx))
      cases o with
      | obj kvs =>
          have ho := h _ (List.mem_cons_self _ rest)
          simp only [optionMatchesLabel] at ho
          rw [Bool.or_eq_false_iff] at ho
          simp only [findOptionId]
          rw [if_neg (by simp [ho.1]), if_neg (by simp [ho.2])]
          exact hrest
      | null => simpa [findOptionId] using hrest
      | int n => simpa [findOptionId] using hrest
      | str s => simpa [findOptionId] using hrest
      | arr vs => simpa [findOptionId] using hrest

/-- Scan result on the single cached Gold option. -/
theorem findOptionId_gold (label : String)
    (hmatch : normLabel label = normLabel "Gold") :
    findOptionId [JVal.obj [("id", JVal.int 7), ("value", JVal.str "Gold")]] label
      = Option.some (JVal.int 7) := by
  have hc : ((optLabel [("id", JVal.int 7), ("value", JVal.str "Gold")]).truthy &&
      (normLabel (optLabel [("id", JVal.int 7), ("value", JVal.str "Gold")]).pyStr
        == normLabel label)) = true := by
    rw [hmatch]
    decide
  simp only [findOptionId]
  rw [if_pos hc]
  rfl

/-- C5: with the select-value cache holding the single option
`(id = 7, label = "Gold")` for the output field with property id 100, writing
any outcome label that matches `Gold` case-insensitively after trimming puts
the array `[7]` under the write key `id_100`; and whenever no cached option
matches the outcome label, the field is omitted from the payload entirely. -/
theorem select_option_round_trip (label : String) (fetch : SVal → Option JVal)
    (hmatch : normLabel label = normLabel "Gold") :
    processField fetch
      [(SVal.int 100, JVal.arr [JVal.obj [("id", JVal.int 7), ("value", JVal.str "Gold")]])]
      emptyCard "100" label
      = Option.some (Option.some ("id_100", JVal.arr [JVal.int 7]),
          [(SVal.int 100, JVal.arr [JVal.obj [("id", JVal.int 7), ("value", JVal.str "Gold")]])]) ∧
    (∀ opts, (∀ o ∈ opts, optionMatchesLabel o label = false) →
      processField fetch [(SVal.int 100, JVal.arr opts)] emptyCard "100" label
        = Option.some (Option.none, [(SVal.int 100, JVal.arr opts)])) := by
  constructor
  · have hfin : find_property_info emptyCard "100" = Option.none := rfl
    simp only [processField, hfin]
    simp only [show pyInt (cleanFid "100") = Option.some (100 : Int) from rfl]
    simp only [show
      fetchSelectValues
        [(SVal.int 100, JVal.arr [JVal.obj [("id", JVal.int 7), ("value", JVal.str "Gold")]])]
        fetch (SVal.int 100)
      = (Option.some (JVal.arr [JVal.obj [("id", JVal.int 7), ("value", JVal.str "Gold")]]),
         [(SVal.int 100, JVal.arr [JVal.obj [("id", JVal.int 7), ("value", JVal.str "Gold")]])])
      from rfl]
    rw [if_pos (show (JVal.arr [JVal.obj [("id", JVal.int 7), ("value", JVal.str "Gold")]]).truthy
        = true from rfl)]
    simp only [iterOpts]
    rw [findOptionId_gold label hmatch]
    rfl
  · intro opts hnm
    have hfin : find_property_info emptyCard "100" = Option.none := rfl
    simp only [processField, hfin]
    simp only [show pyInt (cleanFid "100") = Option.some (100 : Int) from rfl]
    have hfetch : fetchSelectValues [(SVal.int 100, JVal.arr opts)] fetch (SVal.int 100)
        = (Option.some (JVal.arr opts), [(SVal.int 100, JVal.arr opts)]) := rfl
    simp only [hfetch]
    by_cases he : opts = []
    · subst he
      rfl
    · rw [if_pos (by simp [JVal.truthy, he])]
      simp only [iterOpts]
      rw [findOptionId_none opts label hnm]

/-- Witness for C5 with a label that matches only after trimming and case
folding. -/
theorem select_option_round_trip_witness :
    processField (fun _ => Option.none)
      [(SVal.int 100, JVal.arr [JVal.obj [("id", JVal.int 7), ("value", JVal.str "Gold")]])]
      emptyCard "100" " GOLD "
      = Option.some (Option.some ("id_100", JVal.arr [JVal.int 7]),
          [(SVal.int 100, JVal.arr [JVal.obj [("id", JVal.int 7), ("value", JVal.str "Gold")]])]) :=
  (select_option_round_trip " GOLD " (fun _ => Option.none) (by decide)).1

/-- C6: the session select-value cache retains only non-empty option lists
(an empty or failed fetch leaves the cache unchanged so a later call of the
same process retries), and once a property id is cached every later lookup
returns the cached list without issuing a request; cached entries persist
across unrelated calls. -/
theorem select_cache_contract (cache : SelectCache) (pid : Int) (resp : Option JVal)
    (hwf : ∀ p ∈ cache, p.2 ≠ []) :
    (∀ p ∈ (ka_get_select_values cache pid resp).2.1, p.2 ≠ []) ∧
    (((ka_get_select_values cache pid resp).1 = Option.none ∨
      (ka_get_select_values cache pid resp).1 = Option.some []) →
        (ka_get_select_values cache pid resp).2.1 = cache) ∧
    (∀ vs, cacheLookup cache pid = Option.some vs →
        ka_get_select_values cache pid resp = (Option.some vs, cache, false)) ∧
    (∀ q vs, cacheLookup cache q = Option.some vs →
        cacheLookup (ka_get_select_values cache pid resp).2.1 q = Option.some vs) := by
  cases hl : cacheLookup cache pid with
  | some vs =>
      have hres : ka_get_select_values cache pid resp = (Option.some vs, cache, false) := by
        unfold ka_get_select_values
        rw [hl]
      rw [hres]
      refine ⟨hwf, fun _ => rfl, ?_, fun q vs2 h => h⟩
      intro vs2 hv
      cases hv
      rfl
  | none =>
      cases resp with
      | none =>
          have hres : ka_get_select_values cache pid Option.none
              = (Option.none, cache, true) := by
            unfold ka_get_select_values
            rw [hl]
          rw [hres]
          refine ⟨hwf, fun _ => rfl, ?_, fun q vs2 h => h⟩
          intro vs2 hv
          exact Option.noConfusion hv
      | some r =>
          by_cases he : (ka_parse_select_values r).isEmpty = true
          · have hres : ka_get_select_values cache pid (Option.some r)
                = (Option.some (ka_parse_select_values r), cache, true) := by
              unfold ka_get_select_values
              rw [hl]
              dsimp only
              rw [if_pos he]
            rw [hres]
            refine ⟨hwf, fun _ => rfl, ?_, fun q vs2 h => h⟩
            intro vs2 hv
            exact Option.noConfusion hv
          · have hres : ka_get_select_values cache pid (Option.some r)
                = (Option.some (ka_parse_select_values r),
                   (pid, ka_parse_select_values r) :: cache, true) := by
              unfold ka_get_select_values
              rw [hl]
              dsimp only
              rw [if_neg he]
            rw [hres]
            refine ⟨?_, ?_, ?_, ?_⟩
            · intro p hp
              rcases List.mem_cons.mp hp with hp1 | hp2
              · subst hp1
                simpa [List.isEmpty_iff] using he
              · exact hwf p hp2
            · rintro (h | h)
              · exact Option.noConfusion h
              · have hempty : ka_parse_select_values r = [] := by
                  exact Option.some.inj h
                exact absurd (by simp [hempty] : (ka_parse_select_values r).isEmpty = true) he
            · intro vs2 hv
              exact Option.noConfusion hv
            · intro q vs2 h
              have hpq : pid ≠ q := by
                intro hq
                rw [hq] at hl
                rw [hl] at h
                exact Option.noConfusion h
              have hne : (pid == q) = false := by
                simpa using hpq
              simp only [cacheLookup, List.find?, hne]
              exact h

/-- Witness for C6 on a one-entry cache: a hit answers from the cache with no
request. -/
theorem select_cache_contract_witness :
    ka_get_select_values [(1, [JVal.int 5])] 1 Option.none
      = (Option.some [JVal.int 5], [(1, [JVal.int 5])], false) :=
  (select_cache_contract [(1, [JVal.int 5])] 1 Option.none
      (by simp)).2.2.1 [JVal.int 5] rfl

/-- C7: whenever the update reaches the PATCH call (the card was fetched and
at least one output field resolved into the payload), the boolean result of
`update_card_parameters` is exactly the PATCH call's own result; the post-write
verification only contributes warnings and the result does not depend on the
re-fetched card at all. -/
theorem update_result_is_write_result (cfg : Config) (env : UpdateEnv) (card : Card)
    (props : List (String × JVal)) (cache : UpdCache)
    (hcard : env.card = Option.some card)
    (hbuild : buildProperties cfg card env.apiSelect (calculate_all_parameters cfg card)
        = Option.some (props, cache))
    (hne : props ≠ []) :
    update_card_parameters cfg env
      = Option.some (env.patchOk,
          if env.patchOk then
            verificationWarnings cfg (calculate_all_parameters cfg card) env.refetched
          else []) ∧
    (∀ rf1 rf2 : Option Card,
      (update_card_parameters cfg { env with refetched := rf1 }).map Prod.fst
        = (update_card_parameters cfg { env with refetched := rf2 }).map Prod.fst) := by
  obtain ⟨ecard, efetch, epatch, erefetch⟩ := env
  dsimp only at hcard hbuild ⊢
  subst hcard
  have hie : props.isEmpty = false := by
    cases props with
    | nil => exact absurd rfl hne
    | cons a l => rfl
  have hmain : ∀ rf : Option Card,
      update_card_parameters cfg (UpdateEnv.mk (Option.some card) efetch epatch rf)
        = Option.some (epatch,
            if epatch then
              verificationWarnings cfg (calculate_all_parameters cfg card) rf
            else []) := by
    intro rf
    unfold update_card_parameters
    dsimp only
    rw [hbuild]
    dsimp only
    rw [hie]
    simp
  exact ⟨hmain erefetch, fun rf1 rf2 => by rw [hmain rf1, hmain rf2]; rfl⟩

/-- Output-field configuration of the C7 witness. -/
def cfgW : Config := { field_rating_kachestva := "100" }

/-- Select-values environment of the C7 witness: property 100 has the single
option `(id = 5, value = "Бронза")`. -/
def fetchW : SVal → Option JVal := fun _ =>
  Option.some (JVal.arr [JVal.obj [("id", JVal.int 5), ("value", JVal.str "Бронза")]])

/-- Environment of the C7 witness: empty card, successful PATCH, failed
re-fetch. -/
def envW : UpdateEnv := ⟨Option.some emptyCard, fetchW, true, Option.none⟩

/-- Field extraction on the empty card finds nothing. -/
theorem extract_field_value_emptyCard (fid : String) :
    extract_field_value emptyCard fid = JVal.null := by
  unfold extract_field_value extractAfterCP extractTopStep emptyCard
  split_ifs <;> rfl

/-- Numeric extraction on the empty card yields the 0.0 fallback. -/
theorem extract_numeric_value_emptyCard (fid : String) :
    extract_numeric_value emptyCard fid = 0 := by
  unfold extract_numeric_value
  rw [extract_field_value_emptyCard fid]

/-- Text extraction on the empty card yields absence. -/
theorem extract_text_value_emptyCard (fid : String) :
    extract_text_value emptyCard fid = Option.none := by
  unfold extract_text_value
  rw [extract_field_value_emptyCard fid]

/-- Classification of the empty card: everything scores 0. -/
theorem calculate_all_parameters_emptyCard :
    calculate_all_parameters cfgW emptyCard
      = ⟨"Бронза", "Не определен", "Не определен", "Не определен"⟩ := by
  unfold calculate_all_parameters calculate_rating_kachestva calculate_tip_kontenta
    calculate_uroven_spikera calculate_ohvat
  simp only [extract_numeric_value_emptyCard, extract_text_value_emptyCard]
  norm_num [rating_of_scores, tip_of_scores, uroven_of_scores, ohvat_of_scores,
    influencer_truthy]

/-- Payload assembly of the C7 witness. -/
theorem buildProperties_witness :
    buildProperties cfgW emptyCard fetchW (calculate_all_parameters cfgW emptyCard)
      = Option.some ([("id_100", JVal.arr [JVal.int 5])],
          [(SVal.int 100, JVal.arr [JVal.obj [("id", JVal.int 5), ("value", JVal.str "Бронза")]])]) := by
  rw [calculate_all_parameters_emptyCard]
  rfl

/-- Witness for C7: in the concrete environment the update returns the PATCH
result `true` with no warnings. -/
theorem update_result_is_write_result_witness :
    update_card_parameters cfgW envW = Option.some (true, []) := by
  have h := (update_result_is_write_result cfgW envW emptyCard
      [("id_100", JVal.arr [JVal.int 5])]
      [(SVal.int 100, JVal.arr [JVal.obj [("id", JVal.int 5), ("value", JVal.str "Бронза")]])]
      rfl buildProperties_witness (by simp)).1
  simpa using h

/-- Entries of a no-plausible-id dict are no-plausible-id values. -/
theorem noPlausibleIdObj_mem (kvs : List (String × JVal))
    (h : noPlausibleIdObj kvs = true) :
    ∀ kv ∈ kvs, noPlausibleId kv.2 = true := by
  induction kvs with
  | nil =>
      intro kv hkv
      cases hkv
  | cons a l ih =>
      intro kv hkv
      simp only [noPlausibleIdObj, Bool.and_eq_true] at h
      rcases List.mem_cons.mp hkv with h1 | h2
      · subst h1
        exact h.1
      · exact ih h.2 kv h2

/-- Elements of a no-plausible-id list are no-plausible-id values. -/
theorem noPlausibleIdList_mem (vs : List JVal)
    (h : noPlausibleIdList vs = true) :
    ∀ v ∈ vs, noPlausibleId v = true := by
  induction vs with
  | nil =>
      intro v hv
      cases hv
  | cons a l ih =>
      intro v hv
      simp only [noPlausibleIdList, Bool.and_eq_true] at h
      rcases List.mem_cons.mp hv with h1 | h2
      · subst h1
        exact h.1
      · exact ih h.2 v h2

/-- The plausibility filter rejects every value of a no-plausible-id payload. -/
theorem extract_id_none_of_noPlausible (v : JVal) (h : noPlausibleId v = true) :
    extract_id v = Option.none := by
  cases v with
  | null => rfl
  | arr vs => rfl
  | obj kvs => rfl
  | int n =>
      simp only [noPlausibleId, decide_eq_true_eq] at h
      simp only [extract_id]
      rw [if_neg (by omega)]
  | str s =>
      simp only [noPlausibleId] at h
      cases hp : pyInt s with
      | none => simp only [extract_id, hp]
      | some n =>
          rw [hp] at h
          simp only [decide_eq_true_eq] at h
          simp only [extract_id, hp]
          rw [if_neg (by omega)]

/-- Values found by key in a no-plausible-id dict stay no-plausible-id. -/
theorem dictGet_noPlausible (kvs : List (String × JVal)) (k : String) (w : JVal)
    (h : noPlausibleIdObj kvs = true) (hg : dictGet kvs k = Option.some w) :
    noPlausibleId w = true := by
  unfold dictGet at hg
  cases hf : kvs.find? (fun kv => kv.1 == k) with
  | none =>
      rw [hf] at hg
      exact Option.noConfusion hg
  | some kv =>
      rw [hf] at hg
      have hmem := List.mem_of_find?_eq_some hf
      have hkv := noPlausibleIdObj_mem kvs h kv hmem
      rw [← Option.some.inj hg]
      exact hkv

/-- Safe navigation preserves the no-plausible-id property. -/
theorem noPlausible_objGetD (v : JVal) (k : String) (h : noPlausibleId v = true) :
    noPlausibleId (objGetD v k) = true := by
  cases v with
  | obj kvs =>
      have hkvs : noPlausibleIdObj kvs = true := by simpa [noPlausibleId] using h
      simp only [objGetD, dictGetD]
      cases hg : dictGet kvs k with
      | none => rfl
      | some w => exact dictGet_noPlausible kvs k w hkvs hg
  | null => rfl
  | int n => rfl
  | str s => rfl
  | arr vs => rfl

/-- Scan of dict entries when every recursion answers nothing. -/
theorem scanObjEntries_none (f : JVal → Option Int) (kvs : List (String × JVal))
    (h : ∀ kv ∈ kvs, f kv.2 = Option.none) :
    scanObjEntries f kvs = Option.none := by
  induction kvs with
  | nil => rfl
  | cons a l ih =>
      simp only [scanObjEntries]
      split_ifs with hk
      · exact ih (fun kv hkv => h kv (List.mem_cons_of_mem a hkv))
      · rw [h a (List.mem_cons_self a l)]
        exact ih (fun kv hkv => h kv (List.mem_cons_of_mem a hkv))

/-- Scan of list elements when every recursion answers nothing. -/
theorem scanArr_none (f : JVal → Option Int) (vs : List JVal)
    (h : ∀ v ∈ vs, f v = Option.none) :
    scanArr f vs = Option.none := by
  induction vs with
  | nil => rfl
  | cons a l ih =>
      simp only [scanArr]
      rw [h a (List.mem_cons_self a l)]
      exact ih (fun v hv => h v (List.mem_cons_of_mem a hv))

/-- The bounded recursive search finds nothing in a no-plausible-id payload,
whatever the depth budget. -/
theorem findIdFuel_none (fuel : Nat) :
    ∀ v, noPlausibleId v = true → findIdFuel fuel v = Option.none := by
  induction fuel with
  | zero =>
      intro v h
      rfl
  | succ fuel ih =>
      intro v h
      cases v with
      | null => rfl
      | int n => rfl
      | str s => rfl
      | arr vs =>
          have hvs : noPlausibleIdList vs = true := by simpa [noPlausibleId] using h
          simp only [findIdFuel]
          exact scanArr_none _ vs (fun v hv => ih v (noPlausibleIdList_mem vs hvs v hv))
      | obj kvs =>
          have hkvs : noPlausibleIdObj kvs = true := by simpa [noPlausibleId] using h
          have hscan := scanObjEntries_none (findIdFuel fuel) kvs
            (fun kv hkv => ih kv.2 (noPlausibleIdObj_mem kvs hkvs kv hkv))
          simp only [findIdFuel]
          cases hg : dictGet kvs "id" with
          | none => exact hscan
          | some iv =>
              dsimp only
              rw [extract_id_none_of_noPlausible iv (dictGet_noPlausible kvs "id" iv hkvs hg)]
              exact hscan

/-- First-hit scan over a list of exhausted candidates. -/
theorem findSomeEqNone {α β : Type} (f : α → Option β) (l : List α)
    (h : ∀ x ∈ l, f x = Option.none) : l.findSome? f = Option.none := by
  induction l with
  | nil => rfl
  | cons a t ih =>
      simp only [List.findSome?]
      rw [h a (List.mem_cons_self a t)]
      exact ih (fun x hx => h x (List.mem_cons_of_mem a hx))

/-- The priority paths produce nothing from a no-plausible-id payload. -/
theorem idPathsProbe_none (body : JVal) (h : noPlausibleId body = true) :
    idPathsProbe body = Option.none := by
  have g1 : ∀ k, noPlausibleId (objGetD body k) = true :=
    fun k => noPlausible_objGetD body k h
  have g2 : ∀ k k2, noPlausibleId (objGetD (objGetD body k) k2) = true :=
    fun k k2 => noPlausible_objGetD _ k2 (g1 k)
  have g3 : ∀ k k2 k3, noPlausibleId (objGetD (objGetD (objGetD body k) k2) k3) = true :=
    fun k k2 k3 => noPlausible_objGetD _ k3 (g2 k k2)
  have g5 : noPlausibleId
      (match objGetD body "card" with | JVal.obj _ => JVal.null | v => v) = true := by
    cases hw : objGetD body "card" with
    | obj kvs => rfl
    | null => rfl
    | int n =>
        have hx := g1 "card"
        rw [hw] at hx
        exact hx
    | str s =>
        have hx := g1 "card"
        rw [hw] at hx
        exact hx
    | arr vs =>
        have hx := g1 "card"
        rw [hw] at hx
        exact hx
  unfold idPathsProbe
  refine findSomeEqNone extract_id (pathCandidates body) ?_
  intro c hc
  simp only [pathCandidates, List.mem_cons, List.not_mem_nil, or_false] at hc
  rcases hc with rfl | rfl | rfl | rfl | rfl | rfl | rfl | rfl | rfl
  · exact extract_id_none_of_noPlausible _ (g3 "data" "old" "id")
  · exact extract_id_none_of_noPlausible _ (g1 "id")
  · exact extract_id_none_of_noPlausible _ (g1 "card_id")
  · exact extract_id_none_of_noPlausible _ (g2 "card" "id")
  · exact extract_id_none_of_noPlausible _ g5
  · exact extract_id_none_of_noPlausible _ (g2 "data" "id")
  · exact extract_id_none_of_noPlausible _ (g3 "data" "changes" "id")
  · exact extract_id_none_of_noPlausible _ (g2 "payload" "id")
  · exact extract_id_none_of_noPlausible _ (g2 "webhook" "id")

/-- Resolution over payloads with no plausible identifier is absent. -/
theorem resolve_card_id_none (body event : JVal)
    (hb : noPlausibleId body = true) (he : noPlausibleId event = true) :
    resolve_card_id body event = Option.none := by
  unfold resolve_card_id find_id_recursive
  rw [idPathsProbe_none body hb]
  rw [findIdFuel_none (5 - 0) body hb]
  exact findIdFuel_none (5 - 0) event he

/-- Lookup results in a no-plausible-id dict never pass the filter. -/
theorem extract_id_dictGetD_none (kvs : List (String × JVal)) (k : String)
    (h : noPlausibleIdObj kvs = true) :
    extract_id (dictGetD kvs k) = Option.none := by
  unfold dictGetD
  cases hg : dictGet kvs k with
  | none => rfl
  | some w => exact extract_id_none_of_noPlausible w (dictGet_noPlausible kvs k w h hg)

/-- The event-root probes (all thresholded) find nothing in a no-plausible-id
event. -/
theorem eventRootProbe_none (event : JVal) (he : noPlausibleId event = true) :
    eventRootProbe event = Option.none := by
  cases event with
  | null => rfl
  | int n => rfl
  | str s => rfl
  | arr vs => rfl
  | obj ekvs =>
      have hkvs : noPlausibleIdObj ekvs = true := by simpa [noPlausibleId] using he
      have hid : (if dictHas ekvs "id" then extract_id (dictGetD ekvs "id") else Option.none)
          = Option.none := by
        split_ifs
        · exact extract_id_dictGetD_none ekvs "id" hkvs
        · rfl
      have hcid : (if dictHas ekvs "card_id" then extract_id (dictGetD ekvs "card_id")
          else Option.none) = Option.none := by
        split_ifs
        · exact extract_id_dictGetD_none ekvs "card_id" hkvs
        · rfl
      have hcard : (if dictHas ekvs "card" then
            (match dictGetD ekvs "card" with
             | JVal.obj ckvs =>
                 if dictHas ckvs "id" then extract_id (dictGetD ckvs "id")
                 else extract_id (JVal.obj ckvs)
             | v => extract_id v)
          else Option.none) = Option.none := by
        split_ifs with hc
        · have hcv : noPlausibleId (dictGetD ekvs "card") = true := by
            unfold dictGetD
            cases hg : dictGet ekvs "card" with
            | none => rfl
            | some w => exact dictGet_noPlausible ekvs "card" w hkvs hg
          cases hv : dictGetD ekvs "card" with
          | obj ckvs =>
              rw [hv] at hcv
              have hck : noPlausibleIdObj ckvs = true := by simpa [noPlausibleId] using hcv
              dsimp only
              split_ifs
              · exact extract_id_dictGetD_none ckvs "id" hck
              · rfl
          | null => rfl
          | int n =>
              rw [hv] at hcv
              exact extract_id_none_of_noPlausible _ hcv
          | str s =>
              rw [hv] at hcv
              exact extract_id_none_of_noPlausible _ hcv
          | arr vs => rfl
        · rfl
      simp only [eventRootProbe]
      rw [hid, hcid, hcard]

/-- C8 counterexample: with body `{}` and event
`{"queryStringParameters": {"card_id": "5"}}` no value anywhere parses as an
integer above the plausibility threshold, yet resolution does not yield
absent and the handler does not answer 400: the query-string fallback
(`index.py` lines 1289-1299) parses `card_id` with plain `int()` and no
threshold, resolves card id 5, and the request proceeds to the update. -/
theorem payload_id_claim_cex :
    noPlausibleId (JVal.obj []) = true ∧
    noPlausibleId (JVal.obj [("queryStringParameters",
      JVal.obj [("card_id", JVal.str "5")])]) = true ∧
    resolve_request_card_id (JVal.obj [])
        (JVal.obj [("queryStringParameters", JVal.obj [("card_id", JVal.str "5")])])
      = ResolveOutcome.found 5 ∧
    handle_http_response_status
        (resolve_request_card_id (JVal.obj [])
          (JVal.obj [("queryStringParameters", JVal.obj [("card_id", JVal.str "5")])]))
        false
      ≠ 400 := by
  refine ⟨rfl, rfl, rfl, ?_⟩
  decide

/-- C8 (amended): the payload `{"data": {"old": {"id": 59682997}}}` resolves
to 59682997 through the priority paths; for any payload and event in which no
value parses as an integer above the plausibility threshold, the priority
paths and the bounded recursive search yield absence (the model is total, no
exception), and — provided the unthresholded query-string `card_id` fallback
stays silent — the whole resolution is absent and the handler surfaces it as
HTTP 400; and an `id` nested 3 levels deep under unknown keys is still found
by the bounded recursive search within the default depth cap 5. -/
theorem payload_id_resolution_amended (body event : JVal) (upd : Bool)
    (hb : noPlausibleId body = true) (he : noPlausibleId event = true)
    (hq : queryStringStep event = ResolveOutcome.absent) :
    resolve_request_card_id
        (JVal.obj [("data", JVal.obj [("old", JVal.obj [("id", JVal.int 59682997)])])])
        (JVal.obj [])
      = ResolveOutcome.found 59682997 ∧
    (resolve_card_id body event = Option.none ∧
      resolve_request_card_id body event = ResolveOutcome.absent ∧
      handle_http_response_status (resolve_request_card_id body event) upd = 400) ∧
    resolve_request_card_id
        (JVal.obj [("lvl1", JVal.obj [("lvl2", JVal.obj
          [("lvl3", JVal.obj [("id", JVal.int 59682997)])])])])
        (JVal.obj [])
      = ResolveOutcome.found 59682997 := by
  have hnone := resolve_card_id_none body event hb he
  have habs : resolve_request_card_id body event = ResolveOutcome.absent := by
    unfold resolve_request_card_id
    rw [hnone]
    dsimp only
    rw [hq]
    dsimp only
    rw [eventRootProbe_none event he]
  refine ⟨rfl, ⟨hnone, habs, ?_⟩, rfl⟩
  rw [habs]
  rfl

/-- Witness for C8 (amended) with a small-integer body, a non-numeric event
id, and no query parameters. -/
theorem payload_id_resolution_amended_witness :
    resolve_request_card_id (JVal.obj [("x", JVal.int 5)]) (JVal.obj [("id", JVal.str "abc")])
      = ResolveOutcome.absent ∧
    handle_http_response_status
        (resolve_request_card_id (JVal.obj [("x", JVal.int 5)])
          (JVal.obj [("id", JVal.str "abc")]))
        true
      = 400 :=
  ((payload_id_resolution_amended (JVal.obj [("x", JVal.int 5)])
    (JVal.obj [("id", JVal.str "abc")]) true rfl rfl rfl).2.1).2

end Kaiten
